import Mathlib

/-!
Verification development for the NLP toolkit script (`nlp_super_app.py`).

The script is a Streamlit app: a task selector over ten task labels, a
`@st.cache_resource`-cached `get_pipeline(task, model=None)` constructor, and
one `if/elif` branch per task.  Each branch checks that its required text
fields are non-blank (`str.strip()` truthiness) before resolving an engine
via `get_pipeline` and invoking it.

Embedding choices:
* Engine behaviour (transformers pipelines, `langdetect.detect`) is external;
  it is abstracted as an `Oracle` of pure functions, one per engine kind,
  quantified over in the theorems.
* Float scores are modelled as rationals; Python `round(x, 2)` is round half
  to even at two decimals (`pyRound2`).
* The observable behaviour of a branch is an `Outcome` (what is rendered: a
  success payload, a `st.warning` message, or an uncaught Python exception)
  together with the list of engine keys successfully resolved through
  `get_pipeline`.
* `get_pipeline` has parameters `task` and `model` only; a call passing any
  other keyword argument raises `TypeError` before any engine is touched
  (`get_pipeline_call`).
* The `@st.cache_resource` memoisation is modelled separately as an explicit
  cache state (`CacheState`, `resolve`) keyed by `(task, model)`.
-/

/-- Engine cache key: the `(task, model)` argument pair of `get_pipeline`. -/
abbrev EngineKey := String × Option String

/-- One engine result dict with a `label` and a `score`, as returned by the
sentiment-analysis and text-classification pipelines. -/
structure SentResult where
  label : String
  score : ℚ
deriving DecidableEq, Repr

/-- One grouped NER entity dict: `entity_group`, `word` (surface text), `score`. -/
structure Entity where
  entity_group : String
  word : String
  score : ℚ
deriving DecidableEq, Repr

/-- External engine behaviour, abstracted: one pure function per engine kind
used by the script.  List-valued engines model pipelines returning a list of
result dicts (the script indexes `[0]`). -/
structure Oracle where
  sentiment : String → List SentResult
  /-- `summarizer(text, max_length, min_length, do_sample)`, each item a `summary_text`. -/
  summarize : String → Nat → Nat → Bool → List String
  ner : String → List Entity
  /-- `translate model text`, each item a `translation_text`. -/
  translate : String → String → List String
  /-- `qa(question=·, context=·)`, the `answer` field. -/
  qa : String → String → String
  /-- `grammar model text`, each item a `generated_text`. -/
  grammar : String → String → List String
  classify : String → List SentResult
  /-- `langdetect.detect`. -/
  detect : String → String

/-- Characters removed by Python `str.strip()` with no argument. -/
def pyWhitespace (c : Char) : Bool :=
  c = ' ' || c = '\t' || c = '\n' || c = '\r' || c = '\x0b' || c = '\x0c'

/-- `text.strip()` is falsy: every character is whitespace (so also the empty
string).  Each branch guards on the negation of this. -/
def pyStripBlank (s : String) : Bool :=
  s.toList.all pyWhitespace

/-- Round a rational to the nearest integer, ties to even (Python rounding). -/
def roundHalfEven (q : ℚ) : ℤ :=
  let n := ⌊q⌋
  let frac := q - n
  if frac < 1/2 then n
  else if 1/2 < frac then n + 1
  else if n % 2 = 0 then n else n + 1

/-- Python `round(x, 2)` on scores (floats modelled as rationals). -/
def pyRound2 (q : ℚ) : ℚ :=
  roundHalfEven (q * 100) / 100

/-- The parameters of `def get_pipeline(task, model=None)`. -/
def get_pipeline_params : List String := ["task", "model"]

/-- Calling `get_pipeline` with positional `task`, keyword `model`, and the
names of any further keyword arguments.  A keyword argument that is not a
parameter of the function raises `TypeError`; otherwise the call resolves
the engine for key `(task, model)`. -/
def get_pipeline_call (task : String) (model : Option String)
    (extraKwargs : List String) : Except String EngineKey :=
  if extraKwargs.all (fun n => get_pipeline_params.contains n) then
    Except.ok (task, model)
  else
    Except.error "TypeError"

/-- The task selector list (`tasks` in the source). -/
def tasks : List String := [
  "Sentiment Analysis",
  "Text Summarization",
  "Named Entity Recognition (NER)",
  "Translation (Multilingual)",
  "Question Answering",
  "Grammar Correction",
  "Text Classification",
  "Language Detection",
  "Keyword Extraction",
  "Chat with a Document (RAG-based)"
]

/-- The translation language-pair → model map (`lang_pairs` in the source). -/
def lang_pairs : List (String × String) := [
  ("English to French", "Helsinki-NLP/opus-mt-en-fr"),
  ("English to German", "Helsinki-NLP/opus-mt-en-de"),
  ("English to Spanish", "Helsinki-NLP/opus-mt-en-es"),
  ("English to Hindi", "Helsinki-NLP/opus-mt-en-hi"),
  ("French to English", "Helsinki-NLP/opus-mt-fr-en"),
  ("German to English", "Helsinki-NLP/opus-mt-de-en"),
  ("Spanish to English", "Helsinki-NLP/opus-mt-es-en"),
  ("Hindi to English", "Helsinki-NLP/opus-mt-hi-en")
]

/-- The raw field values entered in the UI widgets. -/
structure RawInput where
  text : String
  context : String
  question : String
  doc : String
  query : String
  selected_pair : String
deriving DecidableEq, Repr

/-- What one branch renders. -/
inductive Payload where
  | sentiment (label : String) (displayScore : ℚ)
  | summary (text : String)
  | entities (items : List (String × String × ℚ))
  | translated (text : String)
  | answer (text : String)
  | corrected (text : String)
  | classified (label : String) (displayScore : ℚ)
  | language (code : String)
  | keywords (words : List String)
deriving DecidableEq, Repr

/-- Observable outcome of a branch: a rendered success payload, a
`st.warning` message, an uncaught Python exception, or no output (no branch
matched). -/
inductive Outcome where
  | ok (p : Payload)
  | warning (msg : String)
  | raised (exc : String)
  | nothing
deriving DecidableEq, Repr

/-- The keyword list built by `list(set(keywords))` where `keywords` collects
the word field of each NER entity: the entity surface texts with duplicates
removed (iteration order of a Python set is unspecified; `dedup` fixes one
order). -/
def keywordsOf (entities : List Entity) : List String :=
  (entities.map (·.word)).dedup

/-- The `if/elif` task chain: given the engine oracle, the selected task
label and the raw inputs, the rendered outcome together with the engine keys
resolved through `get_pipeline` (in call order). -/
def dispatch (o : Oracle) (task : String) (inp : RawInput) :
    Outcome × List EngineKey :=
  if task = "Sentiment Analysis" then
    if !pyStripBlank inp.text then
      match get_pipeline_call "sentiment-analysis" none [] with
      | Except.error e => (Outcome.raised e, [])
      | Except.ok key =>
        match o.sentiment inp.text with
        | [] => (Outcome.raised "IndexError", [key])
        | r :: _ => (Outcome.ok (Payload.sentiment r.label (pyRound2 r.score)), [key])
    else (Outcome.warning "Please enter text to analyze.", [])
  else if task = "Text Summarization" then
    if !pyStripBlank inp.text then
      match get_pipeline_call "summarization" none [] with
      | Except.error e => (Outcome.raised e, [])
      | Except.ok key =>
        match o.summarize inp.text 100 30 false with
        | [] => (Outcome.raised "IndexError", [key])
        | s :: _ => (Outcome.ok (Payload.summary s), [key])
    else (Outcome.warning "Please enter text to summarize.", [])
  else if task = "Named Entity Recognition (NER)" then
    if !pyStripBlank inp.text then
      match get_pipeline_call "ner" none ["grouped_entities"] with
      | Except.error e => (Outcome.raised e, [])
      | Except.ok key =>
        (Outcome.ok (Payload.entities ((o.ner inp.text).map
          (fun ent => (ent.entity_group, ent.word, pyRound2 ent.score)))), [key])
    else (Outcome.warning "Please enter text for entity extraction.", [])
  else if task = "Translation (Multilingual)" then
    if !pyStripBlank inp.text then
      match lang_pairs.lookup inp.selected_pair with
      | none => (Outcome.raised "KeyError", [])
      | some model =>
        match get_pipeline_call "translation" (some model) [] with
        | Except.error e => (Outcome.raised e, [])
        | Except.ok key =>
          match o.translate model inp.text with
          | [] => (Outcome.raised "IndexError", [key])
          | t :: _ => (Outcome.ok (Payload.translated t), [key])
    else (Outcome.warning "Please enter text to translate.", [])
  else if task = "Question Answering" then
    if !pyStripBlank inp.context && !pyStripBlank inp.question then
      match get_pipeline_call "question-answering" none [] with
      | Except.error e => (Outcome.raised e, [])
      | Except.ok key =>
        (Outcome.ok (Payload.answer (o.qa inp.question inp.context)), [key])
    else (Outcome.warning "Please provide both context and question.", [])
  else if task = "Grammar Correction" then
    if !pyStripBlank inp.text then
      match get_pipeline_call "text2text-generation"
          (some "prithivida/grammar_error_correcter_v1") [] with
      | Except.error e => (Outcome.raised e, [])
      | Except.ok key =>
        match o.grammar "prithivida/grammar_error_correcter_v1" inp.text with
        | [] => (Outcome.raised "IndexError", [key])
        | t :: _ => (Outcome.ok (Payload.corrected t), [key])
    else (Outcome.warning "Please enter text for grammar correction.", [])
  else if task = "Text Classification" then
    if !pyStripBlank inp.text then
      match get_pipeline_call "text-classification" none [] with
      | Except.error e => (Outcome.raised e, [])
      | Except.ok key =>
        match o.classify inp.text with
        | [] => (Outcome.raised "IndexError", [key])
        | r :: _ => (Outcome.ok (Payload.classified r.label (pyRound2 r.score)), [key])
    else (Outcome.warning "Please enter text for classification.", [])
  else if task = "Language Detection" then
    if !pyStripBlank inp.text then
      (Outcome.ok (Payload.language (o.detect inp.text)), [])
    else (Outcome.warning "Please enter text to detect language.", [])
  else if task = "Keyword Extraction" then
    if !pyStripBlank inp.text then
      match get_pipeline_call "ner" none ["grouped_entities"] with
      | Except.error e => (Outcome.raised e, [])
      | Except.ok key =>
        (Outcome.ok (Payload.keywords (keywordsOf (o.ner inp.text))), [key])
    else (Outcome.warning "Please enter text to extract keywords.", [])
  else if task = "Chat with a Document (RAG-based)" then
    if !pyStripBlank inp.doc && !pyStripBlank inp.query then
      match get_pipeline_call "question-answering" none [] with
      | Except.error e => (Outcome.raised e, [])
      | Except.ok key =>
        (Outcome.ok (Payload.answer (o.qa inp.query inp.doc)), [key])
    else (Outcome.warning "Please provide both document and question.", [])
  else (Outcome.nothing, [])

/-- The required text fields of each task, per its input shape: the two-field
tasks require context (or document) plus question, every other task a single
text field. -/
def requiredFields (task : String) : List String :=
  if task = "Question Answering" then ["context", "question"]
  else if task = "Chat with a Document (RAG-based)" then ["document", "question"]
  else ["text"]

/-- Some required field of the task is blank after stripping: exactly the
condition under which the branch of `task` takes its `st.warning` path. -/
def requiredFieldsBlank (task : String) (inp : RawInput) : Bool :=
  if task = "Question Answering" then
    pyStripBlank inp.context || pyStripBlank inp.question
  else if task = "Chat with a Document (RAG-based)" then
    pyStripBlank inp.doc || pyStripBlank inp.query
  else
    pyStripBlank inp.text

/-- State of the `@st.cache_resource` memoisation of `get_pipeline`:
cached handles per argument key, a counter supplying fresh handle
identities, and the number of underlying constructions performed. -/
structure CacheState where
  entries : List (EngineKey × Nat)
  nextHandle : Nat
  constructions : Nat
deriving DecidableEq, Repr

/-- The cache before any `get_pipeline` call. -/
def CacheState.empty : CacheState := ⟨[], 0, 0⟩

/-- One cached `get_pipeline` call for key `k`: on a hit the stored handle is
returned and the state is unchanged; on a miss the underlying constructor
runs once, the fresh handle is stored and returned. -/
def resolve (k : EngineKey) (s : CacheState) : Nat × CacheState :=
  match s.entries.lookup k with
  | some h => (h, s)
  | none =>
    (s.nextHandle,
     ⟨(k, s.nextHandle) :: s.entries, s.nextHandle + 1, s.constructions + 1⟩)

/-- `n` sequential cached calls for the same key: the list of handles
returned, and the final cache state. -/
def resolveN : Nat → EngineKey → CacheState → List Nat × CacheState
  | 0, _, s => ([], s)
  | n + 1, k, s =>
    let p := resolve k s
    let q := resolveN n k p.2
    (p.1 :: q.1, q.2)

/-- Fixture: a concrete engine oracle used to instantiate the theorems. -/
def testOracle : Oracle where
  sentiment _ := [⟨"POSITIVE", 99/100⟩]
  summarize _ _ _ _ := ["A short summary."]
  ner _ := [⟨"PER", "Elon Musk", 9/10⟩, ⟨"ORG", "SpaceX", 9/10⟩]
  translate _ _ := ["Bonjour, comment allez-vous ?"]
  qa _ c := c
  grammar _ _ := ["She did not go to school yesterday."]
  classify _ := [⟨"LABEL_1", 3/4⟩]
  detect _ := "en"

/-- Fixture: an oracle whose sentiment and classification engines return a
raw score of `0.456`, which rounding to two decimals changes. -/
def rawScoreOracle : Oracle where
  sentiment _ := [⟨"POSITIVE", 456/1000⟩]
  summarize _ _ _ _ := []
  ner _ := []
  translate _ _ := []
  qa _ c := c
  grammar _ _ := []
  classify _ := [⟨"LABEL_0", 456/1000⟩]
  detect _ := "en"

/-- Fixture: all fields empty. -/
def emptyInput : RawInput := ⟨"", "", "", "", "", ""⟩

/-- Fixture: the sentiment example text. -/
def loveInput : RawInput := ⟨"I love using this toolkit!", "", "", "", "", ""⟩

/-- Fixture: the NER example text. -/
def nerInput : RawInput := ⟨"Elon Musk founded SpaceX and Tesla.", "", "", "", "", ""⟩

/-- Fixture: the QA example, entered in the context and question widgets. -/
def qaInput : RawInput :=
  ⟨"", "The moon is the only natural satellite of the Earth.",
   "What is the moon?", "", "", ""⟩

/-- Fixture: the same example entered in the document-chat widgets. -/
def docInput : RawInput :=
  ⟨"", "", "", "The moon is the only natural satellite of the Earth.",
   "What is the moon?", ""⟩

/-- Fixture: the translation example with the English-to-French pair. -/
def translateInput : RawInput :=
  ⟨"Hello, how are you?", "", "", "", "", "English to French"⟩

/-- Fixture: the NER entity list of the keyword de-duplication scenario. -/
def microsoftEntities : List Entity :=
  [⟨"ORG", "Microsoft", 9/10⟩, ⟨"ORG", "Microsoft", 8/10⟩,
   ⟨"ORG", "Corporation", 7/10⟩]

/-- The `st.warning` message of each branch when a required field is blank. -/
def warnMsg (task : String) : String :=
  if task = "Sentiment Analysis" then "Please enter text to analyze."
  else if task = "Text Summarization" then "Please enter text to summarize."
  else if task = "Named Entity Recognition (NER)" then
    "Please enter text for entity extraction."
  else if task = "Translation (Multilingual)" then "Please enter text to translate."
  else if task = "Question Answering" then "Please provide both context and question."
  else if task = "Grammar Correction" then "Please enter text for grammar correction."
  else if task = "Text Classification" then "Please enter text for classification."
  else if task = "Language Detection" then "Please enter text to detect language."
  else if task = "Keyword Extraction" then "Please enter text to extract keywords."
  else "Please provide both document and question."

/-- Cache hit: if the key is already cached, `resolve` returns the stored
handle and leaves the state unchanged. -/
theorem resolve_hit (k : EngineKey) (s : CacheState) (h : Nat)
    (hh : s.entries.lookup k = some h) : resolve k s = (h, s) := by
  simp [resolve, hh]

/-- Repeated resolution of an already-cached key returns the stored handle
every time and never changes the state. -/
theorem resolveN_hit (n : Nat) (k : EngineKey) (s : CacheState) (h : Nat)
    (hh : s.entries.lookup k = some h) :
    resolveN n k s = (List.replicate n h, s) := by
  induction n with
  | zero => simp [resolveN]
  | succ m ih => simp [resolveN, resolve_hit k s h hh, ih, List.replicate_succ]

/-- Resolution of an uncached key, `n + 1` times: one construction, and the
fresh handle is returned from every call. -/
theorem resolveN_miss (n : Nat) (k : EngineKey) (s : CacheState)
    (hmiss : s.entries.lookup k = none) :
    resolveN (n + 1) k s =
      (List.replicate (n + 1) s.nextHandle,
       ⟨(k, s.nextHandle) :: s.entries, s.nextHandle + 1, s.constructions + 1⟩) := by
  have hres : resolve k s =
      (s.nextHandle,
       ⟨(k, s.nextHandle) :: s.entries, s.nextHandle + 1, s.constructions + 1⟩) := by
    simp [resolve, hmiss]
  have hh : resolveN n k
      ⟨(k, s.nextHandle) :: s.entries, s.nextHandle + 1, s.constructions + 1⟩ =
      (List.replicate n s.nextHandle,
       ⟨(k, s.nextHandle) :: s.entries, s.nextHandle + 1, s.constructions + 1⟩) :=
    resolveN_hit n k _ s.nextHandle (by simp [List.lookup])
  simp [resolveN, hres, hh, List.replicate_succ]

/-- Any branch whose required field is blank renders its warning message and
resolves no engine. -/
theorem warning_on_blank (o : Oracle) (task : String) (inp : RawInput)
    (hmem : task ∈ tasks) (hblank : requiredFieldsBlank task inp = true) :
    dispatch o task inp = (Outcome.warning (warnMsg task), []) := by
  simp only [tasks, List.mem_cons, List.not_mem_nil, or_false] at hmem
  rcases hmem with rfl | rfl | rfl | rfl | rfl | rfl | rfl | rfl | rfl | rfl <;>
    simp [requiredFieldsBlank] at hblank
  case inr.inr.inr.inr.inl =>
    rcases hblank with h | h <;> simp [dispatch, warnMsg, h]
  case inr.inr.inr.inr.inr.inr.inr.inr.inr =>
    rcases hblank with h | h <;> simp [dispatch, warnMsg, h]
  all_goals simp [dispatch, warnMsg, hblank]

/-- Every warning message names each required field of its task. -/
theorem warnMsg_mentions (task : String) (hmem : task ∈ tasks) :
    ∀ f ∈ requiredFields task, f.toList <:+: (warnMsg task).toList := by
  simp only [tasks, List.mem_cons, List.not_mem_nil, or_false] at hmem
  rcases hmem with rfl | rfl | rfl | rfl | rfl | rfl | rfl | rfl | rfl | rfl <;> decide

/-- C2: resolving the same EngineKey `n + 1` times sequentially constructs
the underlying engine exactly once (the construction counter rises by one),
and every call — the first included — returns the very handle produced by
the first call; calls after the first are cache hits that do not change the
cache. -/
theorem cache_resolve_once (k : EngineKey) (s : CacheState) (n : Nat)
    (hmiss : s.entries.lookup k = none) :
    (resolveN (n + 1) k s).2.constructions = s.constructions + 1 ∧
    (resolveN (n + 1) k s).1 = List.replicate (n + 1) (resolve k s).1 := by
  have h1 : (resolve k s).1 = s.nextHandle := by simp [resolve, hmiss]
  rw [resolveN_miss n k s hmiss, h1]
  exact ⟨rfl, rfl⟩

/-- C2 witness: three sequential resolutions of the sentiment key from the
empty cache perform exactly one construction and return equal handles. -/
theorem cache_resolve_once_witness :
    (CacheState.empty.entries.lookup (("sentiment-analysis", none) : EngineKey)
        = none) ∧
    (resolveN 3 ("sentiment-analysis", none) CacheState.empty).2.constructions
        = CacheState.empty.constructions + 1 ∧
    (resolveN 3 ("sentiment-analysis", none) CacheState.empty).1 =
      List.replicate 3 (resolve ("sentiment-analysis", none) CacheState.empty).1 :=
  ⟨by decide,
   cache_resolve_once ("sentiment-analysis", none) CacheState.empty 2 (by decide)⟩

/-- C3: whenever some required field of a task is blank after stripping, the
branch renders the warning message of that task — which names every required
field, the missing one included — and resolves or constructs no engine. -/
theorem validation_rejects_blank_before_engines (o : Oracle) (task : String)
    (inp : RawInput) (hmem : task ∈ tasks)
    (hblank : requiredFieldsBlank task inp = true) :
    dispatch o task inp = (Outcome.warning (warnMsg task), []) ∧
    ∀ f ∈ requiredFields task, f.toList <:+: (warnMsg task).toList :=
  ⟨warning_on_blank o task inp hmem hblank, warnMsg_mentions task hmem⟩

/-- C3 witness: Question Answering with a context but an empty question is
rejected with the warning naming both fields, and no engine is resolved. -/
theorem validation_rejects_blank_before_engines_witness :
    dispatch testOracle "Question Answering"
        ⟨"", "The moon is the only natural satellite of the Earth.", "", "", "", ""⟩ =
      (Outcome.warning "Please provide both context and question.", []) ∧
    ∀ f ∈ requiredFields "Question Answering",
      f.toList <:+: (warnMsg "Question Answering").toList :=
  validation_rejects_blank_before_engines testOracle "Question Answering"
    ⟨"", "The moon is the only natural satellite of the Earth.", "", "", "", ""⟩
    (by decide) (by decide)

/-- C1 counterexample: the claim that dispatch never raises is false — on
the NER branch with a non-blank example text, the call
`get_pipeline("ner", grouped_entities=True)` passes a keyword argument that
`get_pipeline(task, model=None)` does not accept, and the branch ends in an
uncaught `TypeError` instead of a Result. -/
theorem dispatch_raises_counterexample :
    (dispatch testOracle "Named Entity Recognition (NER)" nerInput).1 =
      Outcome.raised "TypeError" := by
  have hb : pyStripBlank nerInput.text = false := by decide
  simp [dispatch, hb, get_pipeline_call, get_pipeline_params]

/-- C1 amended: validation failures never escape as exceptions — every task
whose required field is blank renders a warning Result — but engine-
resolution failures do escape: the NER branch raises `TypeError` to its
caller on every non-blank input. -/
theorem dispatch_error_capture :
    (∀ (o : Oracle) (task : String) (inp : RawInput), task ∈ tasks →
        requiredFieldsBlank task inp = true →
        (dispatch o task inp).1 = Outcome.warning (warnMsg task)) ∧
    ∀ (o : Oracle) (inp : RawInput), pyStripBlank inp.text = false →
        (dispatch o "Named Entity Recognition (NER)" inp).1 =
          Outcome.raised "TypeError" := by
  constructor
  · intro o task inp hmem hblank
    rw [warning_on_blank o task inp hmem hblank]
  · intro o inp h
    simp [dispatch, h, get_pipeline_call, get_pipeline_params]

/-- C1 witness: blank sentiment input yields the warning Result, and the NER
branch on the example text raises TypeError. -/
theorem dispatch_error_capture_witness :
    (dispatch testOracle "Sentiment Analysis" emptyInput).1 =
      Outcome.warning (warnMsg "Sentiment Analysis") ∧
    (dispatch testOracle "Named Entity Recognition (NER)" nerInput).1 =
      Outcome.raised "TypeError" :=
  ⟨dispatch_error_capture.1 testOracle "Sentiment Analysis" emptyInput
      (by decide) (by decide),
   dispatch_error_capture.2 testOracle nerInput (by decide)⟩

/-- C5: for every non-blank text, both the NER branch and the Keyword
Extraction branch call `get_pipeline` with the unexpected keyword argument
`grouped_entities` and so raise `TypeError` during engine resolution: no
engine is resolved and no entities or keywords are produced. -/
theorem ner_and_keyword_branches_raise_typeerror (o : Oracle) (inp : RawInput)
    (h : pyStripBlank inp.text = false) :
    dispatch o "Named Entity Recognition (NER)" inp =
      (Outcome.raised "TypeError", []) ∧
    dispatch o "Keyword Extraction" inp = (Outcome.raised "TypeError", []) := by
  constructor <;> simp [dispatch, h, get_pipeline_call, get_pipeline_params]

/-- C5 witness: both branches raise TypeError on the concrete example text. -/
theorem ner_and_keyword_branches_raise_typeerror_witness :
    dispatch testOracle "Named Entity Recognition (NER)" nerInput =
      (Outcome.raised "TypeError", []) ∧
    dispatch testOracle "Keyword Extraction" nerInput =
      (Outcome.raised "TypeError", []) :=
  ner_and_keyword_branches_raise_typeerror testOracle nerInput (by decide)

/-- C4: the keyword list is the NER entity surface texts de-duplicated:
every surface text occurring in the entity sequence occurs exactly once in
the keyword list. -/
theorem keyword_list_dedups_surface_texts (entities : List Entity) (w : String)
    (hw : w ∈ entities.map (fun e => e.word)) :
    (keywordsOf entities).count w = 1 := by
  simp [keywordsOf, List.count_dedup, hw]

/-- C4 witness: the Microsoft/Microsoft/Corporation entity list yields
Microsoft exactly once and Corporation exactly once. -/
theorem keyword_list_dedups_surface_texts_witness :
    ("Microsoft" ∈ microsoftEntities.map (fun e => e.word) ∧
      (keywordsOf microsoftEntities).count "Microsoft" = 1) ∧
    ("Corporation" ∈ microsoftEntities.map (fun e => e.word) ∧
      (keywordsOf microsoftEntities).count "Corporation" = 1) :=
  ⟨⟨by decide, keyword_list_dedups_surface_texts microsoftEntities "Microsoft" (by decide)⟩,
   ⟨by decide, keyword_list_dedups_surface_texts microsoftEntities "Corporation" (by decide)⟩⟩

/-- C6 counterexample: the claim that the Result payload retains the raw
score distinct from the rounded value is false — with a raw engine score of
0.456 the rendered sentiment payload carries only the rounded 0.46; the raw
score appears nowhere in the Result. -/
theorem payload_drops_raw_score_counterexample :
    (dispatch rawScoreOracle "Sentiment Analysis" loveInput).1 =
      Outcome.ok (Payload.sentiment "POSITIVE" (23/50)) ∧
    (23/50 : ℚ) ≠ 456/1000 := by
  constructor
  · have hb : pyStripBlank loveInput.text = false := by decide
    have hr : pyRound2 (456/1000) = 23/50 := by norm_num [pyRound2, roundHalfEven]
    simp [dispatch, hb, rawScoreOracle, get_pipeline_call, get_pipeline_params, hr]
  · norm_num

/-- C6 amended: rounding is display-only in that it does not mutate the raw
engine score — the rendered payload score is exactly `pyRound2` of the raw
score the engine returned, and the raw result is consumed unaltered — but
the payload retains only the rounded value, not the raw score. -/
theorem score_rounding_display_only (o : Oracle) (inp : RawInput)
    (hb : pyStripBlank inp.text = false) :
    (∀ r rest, o.sentiment inp.text = r :: rest →
        dispatch o "Sentiment Analysis" inp =
          (Outcome.ok (Payload.sentiment r.label (pyRound2 r.score)),
           [("sentiment-analysis", none)])) ∧
    (∀ r rest, o.classify inp.text = r :: rest →
        dispatch o "Text Classification" inp =
          (Outcome.ok (Payload.classified r.label (pyRound2 r.score)),
           [("text-classification", none)])) := by
  constructor <;> intro r rest hr <;>
    simp [dispatch, hb, get_pipeline_call, get_pipeline_params, hr]

/-- C6 witness: the sentiment branch on the raw-score oracle renders the
rounded score computed from the raw 0.456. -/
theorem score_rounding_display_only_witness :
    dispatch rawScoreOracle "Sentiment Analysis" loveInput =
      (Outcome.ok (Payload.sentiment "POSITIVE" (pyRound2 (456/1000))),
       [("sentiment-analysis", none)]) :=
  (score_rounding_display_only rawScoreOracle loveInput (by decide)).1
    ⟨"POSITIVE", 456/1000⟩ [] rfl

/-- C7: with both fields non-blank, the document-chat branch is extensionally
the same as the question-answering branch on the document as context: both
resolve the single question-answering engine, invoke it with the same
question and context, and render its answer — no retrieval, chunking or
embedding step exists in either. -/
theorem doc_chat_equals_qa (o : Oracle) (inp1 inp2 : RawInput)
    (hdoc : inp2.doc = inp1.context) (hq : inp2.query = inp1.question)
    (hc : pyStripBlank inp1.context = false)
    (hqn : pyStripBlank inp1.question = false) :
    dispatch o "Chat with a Document (RAG-based)" inp2 =
      dispatch o "Question Answering" inp1 ∧
    (dispatch o "Question Answering" inp1).2 = [("question-answering", none)] := by
  constructor <;> simp [dispatch, hdoc, hq, hc, hqn, get_pipeline_call]

/-- C7 witness: the moon example gives identical outcomes through both
branches. -/
theorem doc_chat_equals_qa_witness :
    dispatch testOracle "Chat with a Document (RAG-based)" docInput =
      dispatch testOracle "Question Answering" qaInput ∧
    (dispatch testOracle "Question Answering" qaInput).2 =
      [("question-answering", none)] :=
  doc_chat_equals_qa testOracle qaInput docInput rfl rfl (by decide) (by decide)

/-- C9: with a non-blank text the summarization branch invokes its engine
with `max_length=100`, `min_length=30`, `do_sample=False`, and renders the
first summary the engine returns at exactly those arguments. -/
theorem summarization_invocation_bounds (o : Oracle) (inp : RawInput)
    (hb : pyStripBlank inp.text = false) (s : String) (rest : List String)
    (hs : o.summarize inp.text 100 30 false = s :: rest) :
    dispatch o "Text Summarization" inp =
      (Outcome.ok (Payload.summary s), [("summarization", none)]) := by
  simp [dispatch, hb, get_pipeline_call, get_pipeline_params, hs]

/-- C9 witness: the test oracle summarizes the example text. -/
theorem summarization_invocation_bounds_witness :
    dispatch testOracle "Text Summarization" nerInput =
      (Outcome.ok (Payload.summary "A short summary."), [("summarization", none)]) :=
  summarization_invocation_bounds testOracle nerInput (by decide)
    "A short summary." [] rfl

/-- C8: the task selector lists exactly ten distinct tasks, the translation
table maps exactly eight distinct language pairs, English to French maps to
the Helsinki en-fr model, and a non-blank translation request with that
variant resolves exactly the EngineKey (translation, Helsinki en-fr). -/
theorem catalog_and_translation_key (o : Oracle) (inp : RawInput)
    (hpair : inp.selected_pair = "English to French")
    (hb : pyStripBlank inp.text = false) :
    tasks.length = 10 ∧ tasks.Nodup ∧
    lang_pairs.length = 8 ∧ (lang_pairs.map Prod.fst).Nodup ∧
    lang_pairs.lookup "English to French" = some "Helsinki-NLP/opus-mt-en-fr" ∧
    (dispatch o "Translation (Multilingual)" inp).2 =
      [("translation", some "Helsinki-NLP/opus-mt-en-fr")] := by
  refine ⟨by decide, by decide, by decide, by decide, by decide, ?_⟩
  cases htr : o.translate "Helsinki-NLP/opus-mt-en-fr" inp.text <;>
    simp [dispatch, hb, hpair, get_pipeline_call, get_pipeline_params,
      lang_pairs, List.lookup, htr]

/-- C8 witness: the translation example resolves the en-fr EngineKey. -/
theorem catalog_and_translation_key_witness :
    tasks.length = 10 ∧ tasks.Nodup ∧
    lang_pairs.length = 8 ∧ (lang_pairs.map Prod.fst).Nodup ∧
    lang_pairs.lookup "English to French" = some "Helsinki-NLP/opus-mt-en-fr" ∧
    (dispatch testOracle "Translation (Multilingual)" translateInput).2 =
      [("translation", some "Helsinki-NLP/opus-mt-en-fr")] :=
  catalog_and_translation_key testOracle translateInput rfl (by decide)
